import Mathlib

attribute [local semireducible] Rat.add Rat.sub Rat.mul Rat.inv

/-!
Shallow embedding of `src/support.py` (minimax-regret portfolio optimization).

Numbers are modelled as rationals (`ℚ`).  Python dictionaries holding the
per-scenario values become functions out of the closed scenario type.  The
external integer-programming solver (PuLP + CBC) is an external collaborator:
each invocation is modelled by an `LpOutcome` oracle value describing what the
solver did (raised an exception, final status, objective value, variable
values).  A predicate `KnapsackSolverCorrect` states that the oracle actually
solved the 0/1 knapsack problem the code hands to it.  Python exceptions are
modelled with `Except String`.
-/

/-- The closed set of scenarios, `scenarios = ['best', 'med', 'worst']` in
`support.py`. -/
inductive Scenario
  | best
  | med
  | worst
  deriving DecidableEq, Repr

/-- An initiative record.  The raw input fields are `id`, `cost`,
`confidence`, `R_best`, `R_med`, `R_worst`; the pipeline augments the record
in place with the derived fields `gamma` and `effective_returns`
(`none` models the key being absent from the Python dict). -/
structure Initiative where
  id : Nat
  cost : ℚ
  confidence : ℚ
  R_best : ℚ
  R_med : ℚ
  R_worst : ℚ
  gamma : Option ℚ := none
  effective_returns : Option (Scenario → ℚ) := none

/-- The `R_base_map` dictionary built in `calculate_effective_returns`
(support.py lines 18-22): the raw return of an initiative per scenario. -/
def R_base_map (i : Initiative) : Scenario → ℚ
  | Scenario.best => i.R_best
  | Scenario.med => i.R_med
  | Scenario.worst => i.R_worst

/-- Reading `initiative['effective_returns'][s]`.  The pipeline only reads
this key on records it has already augmented, so the `none` default is never
reached on the paths the code takes. -/
def effectiveReturn (i : Initiative) (s : Scenario) : ℚ :=
  match i.effective_returns with
  | some f => f s
  | none => 0

/-- `calculate_gamma` (support.py lines 6-9): raises `ValueError` unless
`0 <= confidence_score <= 1`, else returns `1 - confidence_score`. -/
def calculate_gamma (confidence_score : ℚ) : Except String ℚ :=
  if 0 ≤ confidence_score ∧ confidence_score ≤ 1 then
    Except.ok (1 - confidence_score)
  else
    Except.error "Confidence score must be between 0 and 1."

/-- The body of the loop of `calculate_effective_returns` (support.py lines
13-26) for one initiative: compute `gamma_i` with the penalty function and
store `gamma` and `effective_returns` on the record. -/
def processInitiative (confidence_penalty_func : ℚ → Except String ℚ)
    (i : Initiative) : Except String Initiative := do
  let gamma_i ← confidence_penalty_func i.confidence
  Except.ok { i with
    gamma := some gamma_i,
    effective_returns :=
      some (fun s => (1 - gamma_i) * R_base_map i s + gamma_i * i.R_worst) }

/-- `calculate_effective_returns` (support.py lines 11-27): process every
initiative in order; a `ValueError` from the penalty function propagates. -/
def calculate_effective_returns (confidence_penalty_func : ℚ → Except String ℚ) :
    List Initiative → Except String (List Initiative)
  | [] => Except.ok []
  | i :: rest => do
    let i' ← processInitiative confidence_penalty_func i
    let rest' ← calculate_effective_returns confidence_penalty_func rest
    Except.ok (i' :: rest')

/-- PuLP's `LpStatus` codes: the possible values of `prob.status` after a
solve, as reported by `lp.LpStatus[prob.status]`. -/
inductive LpStatusCode
  | NotSolved
  | Optimal
  | Infeasible
  | Unbounded
  | Undefined
  deriving DecidableEq, Repr

/-- What one invocation of the external CBC solver did: whether
`prob.solve(...)` raised an exception (and its message), the final
`prob.status`, the objective value `lp.value(prob.objective)`, and the value
`varValue` of the binary decision variable attached to each initiative id. -/
structure LpOutcome where
  raised : Bool
  msg : String
  status : LpStatusCode
  objective : ℚ
  varValue : Nat → ℚ

/-- Total cost of a list of initiatives (the sums accumulated over selected
items in support.py lines 98 and 128). -/
def listCost (l : List Initiative) : ℚ := (l.map Initiative.cost).sum

/-- Total effective return of a list of initiatives in one scenario
(support.py lines 36, 96 and 130). -/
def listEffReturn (s : Scenario) (l : List Initiative) : ℚ :=
  (l.map (fun i => effectiveReturn i s)).sum

/-- The true optimal value of the 0/1 knapsack problem the code hands to CBC
in `calculate_optimal_scenario_returns` (support.py lines 34-37): the best
total effective return for scenario `s` over the subsets of `initiatives`
whose total cost is at most `total_budget`. -/
def knapsackOpt (initiatives : List Initiative) (s : Scenario) (total_budget : ℚ) : ℚ :=
  (((initiatives.sublists).filter
      (fun l => decide (listCost l ≤ total_budget))).map (listEffReturn s)).foldr max 0

/-- The oracle `solver` faithfully models a correct external solver on the
three scenario knapsack problems for `initiatives` and `total_budget`: no
exception, status `Optimal`, and the true optimal objective value (the
knapsack problem always has an optimum, since the subsets are finitely many
and the empty subset is feasible for a nonnegative budget). -/
def KnapsackSolverCorrect (solver : Scenario → LpOutcome)
    (initiatives : List Initiative) (total_budget : ℚ) : Prop :=
  ∀ s, (solver s).raised = false ∧ (solver s).status = LpStatusCode.Optimal ∧
    (solver s).objective = knapsackOpt initiatives s total_budget

/-- `calculate_optimal_scenario_returns` (support.py lines 29-50): for each
scenario, hand the knapsack problem over `initiatives` and `total_budget` to
the external solver (the oracle `solver`); the entry is the objective value
when the solve succeeds with status `Optimal`, and the sentinel `-math.inf`
(modelled by `none`) when the solve raises or ends in any other status. -/
def calculate_optimal_scenario_returns (solver : Scenario → LpOutcome)
    (initiatives : List Initiative) (total_budget : ℚ) : Scenario → Option ℚ :=
  fun s =>
    let o := solver s
    if o.raised then none
    else if o.status = LpStatusCode.Optimal then some o.objective
    else none

/-- The status tag of the result dict assembled by
`solve_minimax_regret_optimization`: the three literal strings of the early
returns, or `lp.LpStatus[prob.status]` after the main solve. -/
inductive SolveStatus
  | noEligible
  | errorVjStar
  | errorMain (msg : String)
  | fromSolver (code : LpStatusCode)
  deriving DecidableEq, Repr

/-- The result dict of `solve_minimax_regret_optimization`.  The per-scenario
dicts `v_j_star` and `regrets_for_selected_portfolio` are `none` when the code
returns them as the empty dict `{}`. -/
structure SolveResult where
  status : SolveStatus
  min_max_regret : Option ℚ
  selected_initiatives : List Nat
  total_cost : ℚ
  total_actual_returns : Scenario → ℚ
  v_j_star : Option (Scenario → Option ℚ)
  regrets_for_selected_portfolio : Option (Scenario → ℚ)

/-- The all-zero result of the empty-eligible short circuit
(support.py lines 62-71). -/
def noEligibleResult : SolveResult :=
  { status := SolveStatus.noEligible
    min_max_regret := none
    selected_initiatives := []
    total_cost := 0
    total_actual_returns := fun _ => 0
    v_j_star := none
    regrets_for_selected_portfolio := none }

/-- The all-zero result of the two error returns (support.py lines 77-85 and
105-113): status `st`, the `v_j_star` dict computed so far, empty regrets. -/
def errorResult (st : SolveStatus) (V : Scenario → Option ℚ) : SolveResult :=
  { status := st
    min_max_regret := none
    selected_initiatives := []
    total_cost := 0
    total_actual_returns := fun _ => 0
    v_j_star := some V
    regrets_for_selected_portfolio := some (fun _ => 0) }

/-- Result assembly after the main solve returned without an exception
(support.py lines 115-141): status string of `prob.status`; when the status is
`Optimal`, the selected initiatives are those whose decision variable value
exceeds 0.5, and cost, per-scenario actual returns and per-scenario regrets
`V_j_star[s] - total_actual_returns[s]` are accumulated over them; otherwise
the selection is empty and all the accumulators keep their zero
initialisations. -/
def assembleResult (mainSolver : LpOutcome) (V : Scenario → Option ℚ)
    (processed : List Initiative) : SolveResult :=
  let selected :=
    if mainSolver.status = LpStatusCode.Optimal then
      processed.filter (fun i => decide ((1 : ℚ)/2 < mainSolver.varValue i.id))
    else []
  { status := SolveStatus.fromSolver mainSolver.status
    min_max_regret :=
      if mainSolver.status = LpStatusCode.Optimal then some mainSolver.objective else none
    selected_initiatives := selected.map Initiative.id
    total_cost := listCost selected
    total_actual_returns := fun s => listEffReturn s selected
    v_j_star := some V
    regrets_for_selected_portfolio :=
      some (fun s =>
        if mainSolver.status = LpStatusCode.Optimal then
          (V s).getD 0 - listEffReturn s selected
        else 0) }

/-- The eligibility pre-filter (support.py line 61):
`[i for i in initiatives_data if i['confidence'] >= min_confidence_threshold]`. -/
def eligibleFilter (min_confidence_threshold : ℚ)
    (initiatives_data : List Initiative) : List Initiative :=
  initiatives_data.filter (fun i => decide (min_confidence_threshold ≤ i.confidence))

/-- The effect of the pipeline on the caller's `initiatives_data` list:
`calculate_effective_returns` mutates the eligible records in place, and the
entries of `eligible_initiatives` are aliases into the caller's list, so after
the call every eligible record of the caller's list is augmented and every
ineligible record is untouched. -/
def mutationEffect (confidence_penalty_func : ℚ → Except String ℚ)
    (min_confidence_threshold : ℚ) :
    List Initiative → Except String (List Initiative)
  | [] => Except.ok []
  | i :: rest => do
    let i' ←
      if min_confidence_threshold ≤ i.confidence then
        processInitiative confidence_penalty_func i
      else Except.ok i
    let rest' ← mutationEffect confidence_penalty_func min_confidence_threshold rest
    Except.ok (i' :: rest')

/-- `solve_minimax_regret_optimization` (support.py lines 54-141).  The two
oracle parameters stand for the external solver: `scenarioSolver s` is the CBC
invocation on the scenario-`s` knapsack problem made inside
`calculate_optimal_scenario_returns`, and `mainSolver` is the CBC invocation
on the minimax-regret integer program (support.py lines 88-103).  The second
component of the returned pair is the caller's `initiatives_data` list after
the call (the in-place mutation performed by `calculate_effective_returns` on
the eligible records). -/
def solve_minimax_regret_optimization (scenarioSolver : Scenario → LpOutcome)
    (mainSolver : LpOutcome) (initiatives_data : List Initiative)
    (total_budget min_confidence_threshold min_portfolio_worst_return : ℚ)
    (confidence_penalty_func : ℚ → Except String ℚ) :
    Except String (SolveResult × List Initiative) :=
  let eligible_initiatives := eligibleFilter min_confidence_threshold initiatives_data
  if eligible_initiatives.isEmpty then
    Except.ok (noEligibleResult, initiatives_data)
  else
    match calculate_effective_returns confidence_penalty_func eligible_initiatives with
    | Except.error e => Except.error e
    | Except.ok processed_initiatives =>
      match mutationEffect confidence_penalty_func min_confidence_threshold initiatives_data with
      | Except.error e => Except.error e
      | Except.ok mutated =>
        let V_j_star :=
          calculate_optimal_scenario_returns scenarioSolver processed_initiatives total_budget
        if V_j_star Scenario.best = none ∨ V_j_star Scenario.med = none ∨
            V_j_star Scenario.worst = none then
          Except.ok (errorResult SolveStatus.errorVjStar V_j_star, mutated)
        else if mainSolver.raised then
          Except.ok (errorResult (SolveStatus.errorMain mainSolver.msg) V_j_star, mutated)
        else
          Except.ok (assembleResult mainSolver V_j_star processed_initiatives, mutated)

/-- The closed status set named by the specification:
Optimal / Infeasible / Unbounded / Undefined / No-Eligible-Initiatives /
Error.  PuLP's fifth status string, `Not Solved`, is not in it. -/
def statusInSpecSet : SolveStatus → Bool
  | SolveStatus.noEligible => true
  | SolveStatus.errorVjStar => true
  | SolveStatus.errorMain _ => true
  | SolveStatus.fromSolver LpStatusCode.Optimal => true
  | SolveStatus.fromSolver LpStatusCode.Infeasible => true
  | SolveStatus.fromSolver LpStatusCode.Unbounded => true
  | SolveStatus.fromSolver LpStatusCode.Undefined => true
  | SolveStatus.fromSolver LpStatusCode.NotSolved => false

/-- The result component of a completed pipeline run. -/
def runResult (e : Except String (SolveResult × List Initiative)) : Option SolveResult :=
  match e with
  | Except.ok p => some p.1
  | Except.error _ => none

/-! ### Concrete data used by witnesses and counterexamples -/

/-- A sample raw initiative. -/
def sampleRaw : Initiative :=
  { id := 1, cost := 10, confidence := 1/2, R_best := 100, R_med := 60, R_worst := 40 }

/-- The record `calculate_effective_returns` makes of `sampleRaw` under the
default penalty function. -/
def sampleProcessed : Initiative :=
  { sampleRaw with
    gamma := some (1 - 1/2)
    effective_returns :=
      some (fun s => (1 - (1 - 1/2)) * R_base_map sampleRaw s + (1 - 1/2) * sampleRaw.R_worst) }

/-- A zero-cost initiative with positive returns and full confidence, already
augmented with its derived fields (gamma 0, effective returns 5). -/
def freeInitiative : Initiative :=
  { id := 7, cost := 0, confidence := 1, R_best := 5, R_med := 5, R_worst := 5,
    gamma := some 0, effective_returns := some (fun _ => 5) }

/-- A positive-cost initiative, already augmented with its derived fields. -/
def unitCostInitiative : Initiative :=
  { id := 2, cost := 1, confidence := 1, R_best := 3, R_med := 2, R_worst := 1,
    gamma := some 0, effective_returns := some (fun _ => 2) }

/-- An oracle that solves the knapsack problems over `[freeInitiative]` with
budget 0 exactly. -/
def freeSolver : Scenario → LpOutcome := fun s =>
  { raised := false, msg := "", status := LpStatusCode.Optimal,
    objective := knapsackOpt [freeInitiative] s 0, varValue := fun _ => 0 }

/-- An oracle that solves the knapsack problems over `[unitCostInitiative]`
with budget 0 exactly. -/
def unitCostSolver : Scenario → LpOutcome := fun s =>
  { raised := false, msg := "", status := LpStatusCode.Optimal,
    objective := knapsackOpt [unitCostInitiative] s 0, varValue := fun _ => 0 }

/-- A scenario oracle that returns status Optimal with objective 60 for every
scenario. -/
def okSolver : Scenario → LpOutcome := fun _ =>
  { raised := false, msg := "", status := LpStatusCode.Optimal,
    objective := 60, varValue := fun _ => 0 }

/-- A scenario oracle whose every invocation raises an exception. -/
def failSolver : Scenario → LpOutcome := fun _ =>
  { raised := true, msg := "boom", status := LpStatusCode.NotSolved,
    objective := 0, varValue := fun _ => 0 }

/-- A main-solve outcome: status Optimal, objective 5, every decision variable
at value 1. -/
def optMain : LpOutcome :=
  { raised := false, msg := "", status := LpStatusCode.Optimal,
    objective := 5, varValue := fun _ => 1 }

/-- A main-solve outcome with status `Not Solved` and no exception. -/
def notSolvedMain : LpOutcome :=
  { raised := false, msg := "", status := LpStatusCode.NotSolved,
    objective := 0, varValue := fun _ => 0 }

/-- A main-solve outcome with status Infeasible and no exception. -/
def infeasibleMain : LpOutcome :=
  { raised := false, msg := "", status := LpStatusCode.Infeasible,
    objective := 0, varValue := fun _ => 0 }

/-! ### Helper lemmas -/

/-- Folding `max` with initial value 0 over a list of zeros gives 0. -/
theorem foldr_max_zero (L : List ℚ) (h : ∀ x ∈ L, x = 0) : L.foldr max 0 = 0 := by
  induction L with
  | nil => rfl
  | cons x t ih =>
    have hx : x = 0 := h x (List.mem_cons_self x t)
    have ht : t.foldr max 0 = 0 := ih (fun y hy => h y (List.mem_cons_of_mem x hy))
    simp [List.foldr, hx, ht]

/-- A list of initiatives with positive costs has nonnegative total cost. -/
theorem listCost_nonneg (l : List Initiative) (h : ∀ i ∈ l, 0 < i.cost) :
    0 ≤ listCost l := by
  induction l with
  | nil => simp [listCost]
  | cons i t ih =>
    have hi : 0 < i.cost := h i (List.mem_cons_self i t)
    have ht := ih (fun j hj => h j (List.mem_cons_of_mem i hj))
    simp only [listCost, List.map_cons, List.sum_cons]
    have : (0:ℚ) ≤ (t.map Initiative.cost).sum := ht
    linarith

/-- A nonempty list of initiatives with positive costs has positive total
cost. -/
theorem listCost_pos (l : List Initiative) (h : ∀ i ∈ l, 0 < i.cost)
    (hne : l ≠ []) : 0 < listCost l := by
  cases l with
  | nil => exact absurd rfl hne
  | cons i t =>
    have hi : 0 < i.cost := h i (List.mem_cons_self i t)
    have ht : 0 ≤ listCost t :=
      listCost_nonneg t (fun j hj => h j (List.mem_cons_of_mem i hj))
    simp only [listCost, List.map_cons, List.sum_cons] at *
    linarith

/-- With budget 0 and strictly positive costs, only the empty subset is
feasible, so the knapsack optimum is 0. -/
theorem knapsackOpt_zero_budget (initiatives : List Initiative) (s : Scenario)
    (h : ∀ i ∈ initiatives, 0 < i.cost) : knapsackOpt initiatives s 0 = 0 := by
  unfold knapsackOpt
  apply foldr_max_zero
  intro x hx
  simp only [List.mem_map, List.mem_filter, List.mem_sublists] at hx
  obtain ⟨l, ⟨hsub, hcost⟩, hval⟩ := hx
  have hcost' : listCost l ≤ 0 := of_decide_eq_true hcost
  have hnil : l = [] := by
    by_contra hne
    have hpos : 0 < listCost l :=
      listCost_pos l (fun i hi => h i (hsub.subset hi)) hne
    linarith
  subst hnil
  rw [← hval]
  simp [listEffReturn]

/-- In-range confidence makes `calculate_gamma` succeed with `1 - c`. -/
theorem calculate_gamma_ok (c : ℚ) (h0 : 0 ≤ c) (h1 : c ≤ 1) :
    calculate_gamma c = Except.ok (1 - c) := by
  rw [calculate_gamma, if_pos ⟨h0, h1⟩]

/-! ### C2 -/

/-- C2: for confidence `c` in `[0, 1]`, `calculate_gamma` returns `1 - c`,
itself in `[0, 1]`; and it raises the `ValueError` exactly when `c` is
outside `[0, 1]`. -/
theorem calculate_gamma_spec (c : ℚ) :
    (0 ≤ c → c ≤ 1 →
      calculate_gamma c = Except.ok (1 - c) ∧ 0 ≤ 1 - c ∧ 1 - c ≤ 1) ∧
    ((∃ msg, calculate_gamma c = Except.error msg) ↔ c < 0 ∨ 1 < c) := by
  constructor
  · intro h0 h1
    exact ⟨calculate_gamma_ok c h0 h1, by linarith, by linarith⟩
  · constructor
    · rintro ⟨msg, hmsg⟩
      by_contra hc
      push_neg at hc
      rw [calculate_gamma_ok c hc.1 hc.2] at hmsg
      cases hmsg
    · intro h
      refine ⟨"Confidence score must be between 0 and 1.", ?_⟩
      rw [calculate_gamma, if_neg]
      rintro ⟨h0, h1⟩
      rcases h with h | h
      · exact absurd h0 (not_le.mpr h)
      · exact absurd h1 (not_le.mpr h)

/-- C2 witness: the theorem applied at confidence 1/2. -/
theorem calculate_gamma_spec_witness :
    calculate_gamma (1/2) = Except.ok (1 - 1/2) ∧
      0 ≤ (1:ℚ) - 1/2 ∧ (1:ℚ) - 1/2 ≤ 1 :=
  (calculate_gamma_spec (1/2)).1 (by norm_num) (by norm_num)

/-! ### C3 -/

/-- C3: on initiatives with confidence in `[0, 1]`,
`calculate_effective_returns` (with the default penalty model) succeeds and
pairs each input record with an output record carrying
`gamma = 1 - confidence`, effective returns
`(1 - gamma) * raw[s] + gamma * raw[worst]` for every scenario, and all six
raw fields unchanged. -/
theorem calculate_effective_returns_spec (l : List Initiative)
    (h : ∀ i ∈ l, 0 ≤ i.confidence ∧ i.confidence ≤ 1) :
    ∃ l', calculate_effective_returns calculate_gamma l = Except.ok l' ∧
      List.Forall₂ (fun i i' =>
        i'.gamma = some (1 - i.confidence) ∧
        (∀ s, effectiveReturn i' s =
          (1 - (1 - i.confidence)) * R_base_map i s + (1 - i.confidence) * i.R_worst) ∧
        i'.id = i.id ∧ i'.cost = i.cost ∧ i'.confidence = i.confidence ∧
        i'.R_best = i.R_best ∧ i'.R_med = i.R_med ∧ i'.R_worst = i.R_worst) l l' := by
  induction l with
  | nil => exact ⟨[], rfl, List.Forall₂.nil⟩
  | cons i rest ih =>
    obtain ⟨h0, h1⟩ := h i (List.mem_cons_self i rest)
    obtain ⟨rest', hrest, hrel⟩ := ih (fun j hj => h j (List.mem_cons_of_mem i hj))
    refine ⟨{ i with
        gamma := some (1 - i.confidence)
        effective_returns := some (fun s =>
          (1 - (1 - i.confidence)) * R_base_map i s + (1 - i.confidence) * i.R_worst) }
      :: rest', ?_, ?_⟩
    · simp only [calculate_effective_returns, processInitiative,
        calculate_gamma_ok i.confidence h0 h1, bind, Except.bind, hrest]
    · exact List.Forall₂.cons
        ⟨rfl, fun s => rfl, rfl, rfl, rfl, rfl, rfl, rfl⟩ hrel

/-- C3 witness: the theorem applied to the one-element list `[sampleRaw]`. -/
theorem calculate_effective_returns_spec_witness :
    ∃ l', calculate_effective_returns calculate_gamma [sampleRaw] = Except.ok l' ∧
      List.Forall₂ (fun i i' =>
        i'.gamma = some (1 - i.confidence) ∧
        (∀ s, effectiveReturn i' s =
          (1 - (1 - i.confidence)) * R_base_map i s + (1 - i.confidence) * i.R_worst) ∧
        i'.id = i.id ∧ i'.cost = i.cost ∧ i'.confidence = i.confidence ∧
        i'.R_best = i.R_best ∧ i'.R_med = i.R_med ∧ i'.R_worst = i.R_worst)
        [sampleRaw] l' :=
  calculate_effective_returns_spec [sampleRaw] (by
    intro i hi
    simp only [List.mem_singleton] at hi
    subst hi
    constructor <;> norm_num [sampleRaw])

/-! ### C8 -/

/-- C8 (amended): when every initiative has strictly positive cost and the
solver oracle is correct, the scenario ideal value for budget 0 is 0 for
every scenario. -/
theorem scenario_ideal_zero_budget (solver : Scenario → LpOutcome)
    (initiatives : List Initiative)
    (hcorrect : KnapsackSolverCorrect solver initiatives 0)
    (hpos : ∀ i ∈ initiatives, 0 < i.cost) (s : Scenario) :
    calculate_optimal_scenario_returns solver initiatives 0 s = some 0 := by
  obtain ⟨hr, hst, hobj⟩ := hcorrect s
  have hk := knapsackOpt_zero_budget initiatives s hpos
  simp [calculate_optimal_scenario_returns, hr, hst, hobj, hk]

/-- C8 witness: the amended theorem applied to a single initiative of cost 1
with a correct solver oracle. -/
theorem scenario_ideal_zero_budget_witness :
    calculate_optimal_scenario_returns unitCostSolver [unitCostInitiative] 0
      Scenario.med = some 0 :=
  scenario_ideal_zero_budget unitCostSolver [unitCostInitiative]
    (fun s => ⟨rfl, rfl, rfl⟩)
    (by intro i hi; simp only [List.mem_singleton] at hi; subst hi;
        norm_num [unitCostInitiative])
    Scenario.med

/-- C8 counterexample: with a zero-cost initiative of positive effective
return (costs nonnegative, as the claim assumes) and a correct solver, the
scenario ideal value at budget 0 is 5, not 0. -/
theorem scenario_ideal_zero_budget_cex :
    KnapsackSolverCorrect freeSolver [freeInitiative] 0 ∧
    (0:ℚ) ≤ freeInitiative.cost ∧
    calculate_optimal_scenario_returns freeSolver [freeInitiative] 0
      Scenario.best = some 5 ∧ (5:ℚ) ≠ 0 := by
  refine ⟨fun s => ⟨rfl, rfl, rfl⟩, by norm_num [freeInitiative], ?_, by norm_num⟩
  decide

/-- `processInitiative` succeeds exactly when the penalty function does. -/
theorem processInitiative_ok_iff (p : ℚ → Except String ℚ) (i : Initiative) :
    (∃ i', processInitiative p i = Except.ok i') ↔
      ∃ g, p i.confidence = Except.ok g := by
  cases hp : p i.confidence with
  | ok g => simp [processInitiative, bind, Except.bind, hp]
  | error e => simp [processInitiative, bind, Except.bind, hp]

/-- If the penalty function succeeds on every element,
`calculate_effective_returns` succeeds. -/
theorem calculate_effective_returns_ok (p : ℚ → Except String ℚ)
    (l : List Initiative) (h : ∀ i ∈ l, ∃ g, p i.confidence = Except.ok g) :
    ∃ l', calculate_effective_returns p l = Except.ok l' := by
  induction l with
  | nil => exact ⟨[], rfl⟩
  | cons i rest ih =>
    obtain ⟨i', hi⟩ := (processInitiative_ok_iff p i).mpr
      (h i (List.mem_cons_self i rest))
    obtain ⟨rest', hr⟩ := ih (fun j hj => h j (List.mem_cons_of_mem i hj))
    exact ⟨i' :: rest', by
      simp [calculate_effective_returns, bind, Except.bind, hi, hr]⟩

/-- If `calculate_effective_returns` succeeded on a list, the penalty
function succeeded on every element of that list. -/
theorem calculate_effective_returns_ok_elim (p : ℚ → Except String ℚ) :
    ∀ (l l' : List Initiative),
      calculate_effective_returns p l = Except.ok l' →
      ∀ i ∈ l, ∃ g, p i.confidence = Except.ok g
  | [], _, _, i, hi => absurd hi (List.not_mem_nil i)
  | i :: rest, l', h, j, hj => by
    cases hp : processInitiative p i with
    | error e => simp [calculate_effective_returns, bind, Except.bind, hp] at h
    | ok i' =>
      cases hr : calculate_effective_returns p rest with
      | error e => simp [calculate_effective_returns, bind, Except.bind, hp, hr] at h
      | ok rest' =>
        rcases List.mem_cons.mp hj with hji | hjr
        · subst hji
          exact (processInitiative_ok_iff p j).mp ⟨i', hp⟩
        · exact calculate_effective_returns_ok_elim p rest rest' hr j hjr

/-- If the penalty function succeeds on every eligible element,
`mutationEffect` succeeds. -/
theorem mutationEffect_ok (p : ℚ → Except String ℚ) (th : ℚ)
    (data : List Initiative)
    (h : ∀ i ∈ data, th ≤ i.confidence → ∃ g, p i.confidence = Except.ok g) :
    ∃ m, mutationEffect p th data = Except.ok m := by
  induction data with
  | nil => exact ⟨[], rfl⟩
  | cons i rest ih =>
    obtain ⟨rest', hr⟩ := ih (fun j hj => h j (List.mem_cons_of_mem i hj))
    by_cases he : th ≤ i.confidence
    · obtain ⟨i', hi⟩ := (processInitiative_ok_iff p i).mpr
        (h i (List.mem_cons_self i rest) he)
      exact ⟨i' :: rest', by
        simp [mutationEffect, bind, Except.bind, if_pos he, hi, hr]⟩
    · exact ⟨i :: rest', by
        simp [mutationEffect, bind, Except.bind, if_neg he, hr]⟩

/-- The element-wise content of a successful `mutationEffect`: eligible
records are augmented with `gamma` and `effective_returns` (raw fields
preserved), ineligible records are returned unchanged. -/
theorem mutationEffect_rel (p : ℚ → Except String ℚ) (th : ℚ) :
    ∀ (data m : List Initiative), mutationEffect p th data = Except.ok m →
      List.Forall₂ (fun i i' =>
        (¬ th ≤ i.confidence → i' = i) ∧
        (th ≤ i.confidence → ∃ g, p i.confidence = Except.ok g ∧
          i'.gamma = some g ∧
          i'.effective_returns =
            some (fun s => (1 - g) * R_base_map i s + g * i.R_worst) ∧
          i'.id = i.id ∧ i'.cost = i.cost ∧ i'.confidence = i.confidence ∧
          i'.R_best = i.R_best ∧ i'.R_med = i.R_med ∧ i'.R_worst = i.R_worst))
        data m
  | [], m, h => by
    simp only [mutationEffect, Except.ok.injEq] at h
    subst h
    exact List.Forall₂.nil
  | i :: rest, m, h => by
    by_cases he : th ≤ i.confidence
    · cases hp : p i.confidence with
      | error e =>
        simp [mutationEffect, processInitiative, bind, Except.bind,
          if_pos he, hp] at h
      | ok g =>
        cases hr : mutationEffect p th rest with
        | error e =>
          simp [mutationEffect, processInitiative, bind, Except.bind,
            if_pos he, hp, hr] at h
        | ok rest' =>
          have hm : m = { i with
              gamma := some g
              effective_returns :=
                some (fun s => (1 - g) * R_base_map i s + g * i.R_worst) }
            :: rest' := by
            simp only [mutationEffect, processInitiative, bind, Except.bind,
              if_pos he, hp, hr, Except.ok.injEq] at h
            exact h.symm
          subst hm
          exact List.Forall₂.cons
            ⟨fun hc => absurd he hc,
             fun _ => ⟨g, hp, rfl, rfl, rfl, rfl, rfl, rfl, rfl, rfl⟩⟩
            (mutationEffect_rel p th rest rest' hr)
    · cases hr : mutationEffect p th rest with
      | error e =>
        simp [mutationEffect, bind, Except.bind, if_neg he, hr] at h
      | ok rest' =>
        have hm : m = i :: rest' := by
          simp only [mutationEffect, bind, Except.bind, if_neg he, hr,
            Except.ok.injEq] at h
          exact h.symm
        subst hm
        exact List.Forall₂.cons
          ⟨fun _ => rfl, fun hc => absurd hc he⟩
          (mutationEffect_rel p th rest rest' hr)

/-- Membership in the eligibility filter. -/
theorem mem_eligibleFilter (th : ℚ) (data : List Initiative) (i : Initiative) :
    i ∈ eligibleFilter th data ↔ i ∈ data ∧ th ≤ i.confidence := by
  simp [eligibleFilter, List.mem_filter]

/-- The empty-eligible branch of `solve_minimax_regret_optimization`. -/
theorem solve_eq_noEligible (scenarioSolver : Scenario → LpOutcome)
    (mainSolver : LpOutcome) (initiatives_data : List Initiative)
    (total_budget min_confidence_threshold min_portfolio_worst_return : ℚ)
    (confidence_penalty_func : ℚ → Except String ℚ)
    (h : eligibleFilter min_confidence_threshold initiatives_data = []) :
    solve_minimax_regret_optimization scenarioSolver mainSolver
      initiatives_data total_budget min_confidence_threshold
      min_portfolio_worst_return confidence_penalty_func =
      Except.ok (noEligibleResult, initiatives_data) := by
  unfold solve_minimax_regret_optimization
  rw [h]
  rfl

/-- The shape of `solve_minimax_regret_optimization` when the eligible set is
nonempty and both list traversals succeed: the result is decided by the
`V_j_star` sentinel check, the main-solve exception flag, and otherwise the
assembly of the main solver's answer. -/
theorem solve_eq_of_ok (scenarioSolver : Scenario → LpOutcome)
    (mainSolver : LpOutcome) (initiatives_data processed mutated : List Initiative)
    (total_budget min_confidence_threshold min_portfolio_worst_return : ℚ)
    (confidence_penalty_func : ℚ → Except String ℚ)
    (hne : (eligibleFilter min_confidence_threshold initiatives_data).isEmpty = false)
    (hproc : calculate_effective_returns confidence_penalty_func
      (eligibleFilter min_confidence_threshold initiatives_data) = Except.ok processed)
    (hmut : mutationEffect confidence_penalty_func min_confidence_threshold
      initiatives_data = Except.ok mutated) :
    solve_minimax_regret_optimization scenarioSolver mainSolver
      initiatives_data total_budget min_confidence_threshold
      min_portfolio_worst_return confidence_penalty_func =
      (let V_j_star :=
        calculate_optimal_scenario_returns scenarioSolver processed total_budget
      if V_j_star Scenario.best = none ∨ V_j_star Scenario.med = none ∨
          V_j_star Scenario.worst = none then
        Except.ok (errorResult SolveStatus.errorVjStar V_j_star, mutated)
      else if mainSolver.raised then
        Except.ok (errorResult (SolveStatus.errorMain mainSolver.msg) V_j_star, mutated)
      else
        Except.ok (assembleResult mainSolver V_j_star processed, mutated)) := by
  unfold solve_minimax_regret_optimization
  simp only [hne, hproc, hmut, Bool.false_eq_true, if_false]

/-! ### C4 -/

/-- C4: when every initiative falls below the confidence threshold, the
pipeline short-circuits, for every possible behaviour of the two solver
oracles, to the `No Eligible Initiatives` result: empty selection, absent
minimax regret, zero cost and returns, empty `v_j_star` and regrets dicts,
and the caller's list untouched. -/
theorem solve_no_eligible_short_circuit (scenarioSolver : Scenario → LpOutcome)
    (mainSolver : LpOutcome) (initiatives_data : List Initiative)
    (total_budget min_confidence_threshold min_portfolio_worst_return : ℚ)
    (confidence_penalty_func : ℚ → Except String ℚ)
    (h : ∀ i ∈ initiatives_data, i.confidence < min_confidence_threshold) :
    solve_minimax_regret_optimization scenarioSolver mainSolver
      initiatives_data total_budget min_confidence_threshold
      min_portfolio_worst_return confidence_penalty_func =
      Except.ok (noEligibleResult, initiatives_data) ∧
    noEligibleResult.status = SolveStatus.noEligible ∧
    noEligibleResult.selected_initiatives = [] ∧
    noEligibleResult.min_max_regret = none ∧
    noEligibleResult.total_cost = 0 ∧
    (∀ s, noEligibleResult.total_actual_returns s = 0) ∧
    noEligibleResult.v_j_star = none ∧
    noEligibleResult.regrets_for_selected_portfolio = none := by
  refine ⟨?_, rfl, rfl, rfl, rfl, fun _ => rfl, rfl, rfl⟩
  apply solve_eq_noEligible
  apply List.filter_eq_nil_iff.mpr
  intro i hi
  simp only [decide_eq_true_eq]
  exact not_le.mpr (h i hi)

/-- C4 witness: the theorem applied to one initiative of confidence 1/2 with
threshold 1, under oracles that would fail every solve. -/
theorem solve_no_eligible_short_circuit_witness :
    solve_minimax_regret_optimization failSolver notSolvedMain
      [sampleRaw] 100 1 0 calculate_gamma =
      Except.ok (noEligibleResult, [sampleRaw]) ∧
    noEligibleResult.status = SolveStatus.noEligible ∧
    noEligibleResult.selected_initiatives = [] ∧
    noEligibleResult.min_max_regret = none ∧
    noEligibleResult.total_cost = 0 ∧
    (∀ s, noEligibleResult.total_actual_returns s = 0) ∧
    noEligibleResult.v_j_star = none ∧
    noEligibleResult.regrets_for_selected_portfolio = none :=
  solve_no_eligible_short_circuit failSolver notSolvedMain [sampleRaw] 100 1 0
    calculate_gamma (by
      intro i hi
      simp only [List.mem_singleton] at hi
      subst hi
      norm_num [sampleRaw])

/-! ### C5 -/

/-- C5: when some scenario ideal value is the failure sentinel, the pipeline
returns the `Error in V_j_star calculation` result — empty selection, zero
numeric fields, the computed `v_j_star` dict, empty regrets dict — and this
holds for every possible main-solve oracle (the main minimax solve is never
consulted). -/
theorem solve_vjstar_error (scenarioSolver : Scenario → LpOutcome)
    (mainSolver : LpOutcome) (initiatives_data processed : List Initiative)
    (total_budget min_confidence_threshold min_portfolio_worst_return : ℚ)
    (confidence_penalty_func : ℚ → Except String ℚ) (s0 : Scenario)
    (hne : (eligibleFilter min_confidence_threshold initiatives_data).isEmpty = false)
    (hproc : calculate_effective_returns confidence_penalty_func
      (eligibleFilter min_confidence_threshold initiatives_data) = Except.ok processed)
    (hfail : calculate_optimal_scenario_returns scenarioSolver processed
      total_budget s0 = none) :
    ∃ mutated,
      solve_minimax_regret_optimization scenarioSolver mainSolver
        initiatives_data total_budget min_confidence_threshold
        min_portfolio_worst_return confidence_penalty_func =
        Except.ok (errorResult SolveStatus.errorVjStar
          (calculate_optimal_scenario_returns scenarioSolver processed total_budget),
          mutated) ∧
      (errorResult SolveStatus.errorVjStar
        (calculate_optimal_scenario_returns scenarioSolver processed
          total_budget)).status = SolveStatus.errorVjStar ∧
      (errorResult SolveStatus.errorVjStar
        (calculate_optimal_scenario_returns scenarioSolver processed
          total_budget)).selected_initiatives = [] ∧
      (errorResult SolveStatus.errorVjStar
        (calculate_optimal_scenario_returns scenarioSolver processed
          total_budget)).min_max_regret = none ∧
      (errorResult SolveStatus.errorVjStar
        (calculate_optimal_scenario_returns scenarioSolver processed
          total_budget)).total_cost = 0 ∧
      (∀ s, (errorResult SolveStatus.errorVjStar
        (calculate_optimal_scenario_returns scenarioSolver processed
          total_budget)).total_actual_returns s = 0) := by
  have hpen := calculate_effective_returns_ok_elim confidence_penalty_func _ _ hproc
  obtain ⟨mutated, hmut⟩ := mutationEffect_ok confidence_penalty_func
    min_confidence_threshold initiatives_data
    (fun i hi he => hpen i ((mem_eligibleFilter _ _ i).mpr ⟨hi, he⟩))
  refine ⟨mutated, ?_, rfl, rfl, rfl, rfl, fun _ => rfl⟩
  rw [solve_eq_of_ok scenarioSolver mainSolver initiatives_data processed mutated
    total_budget min_confidence_threshold min_portfolio_worst_return
    confidence_penalty_func hne hproc hmut]
  have hcond : calculate_optimal_scenario_returns scenarioSolver processed
      total_budget Scenario.best = none ∨
    calculate_optimal_scenario_returns scenarioSolver processed
      total_budget Scenario.med = none ∨
    calculate_optimal_scenario_returns scenarioSolver processed
      total_budget Scenario.worst = none := by
    cases s0 with
    | best => exact Or.inl hfail
    | med => exact Or.inr (Or.inl hfail)
    | worst => exact Or.inr (Or.inr hfail)
  simp only [if_pos hcond]

/-- C5 witness: the theorem applied to a run whose every scenario solve
raises. -/
theorem solve_vjstar_error_witness :
    ∃ mutated,
      solve_minimax_regret_optimization failSolver notSolvedMain
        [sampleRaw] 100 0 0 calculate_gamma =
        Except.ok (errorResult SolveStatus.errorVjStar
          (calculate_optimal_scenario_returns failSolver [sampleProcessed] 100),
          mutated) ∧
      (errorResult SolveStatus.errorVjStar
        (calculate_optimal_scenario_returns failSolver [sampleProcessed]
          100)).status = SolveStatus.errorVjStar ∧
      (errorResult SolveStatus.errorVjStar
        (calculate_optimal_scenario_returns failSolver [sampleProcessed]
          100)).selected_initiatives = [] ∧
      (errorResult SolveStatus.errorVjStar
        (calculate_optimal_scenario_returns failSolver [sampleProcessed]
          100)).min_max_regret = none ∧
      (errorResult SolveStatus.errorVjStar
        (calculate_optimal_scenario_returns failSolver [sampleProcessed]
          100)).total_cost = 0 ∧
      (∀ s, (errorResult SolveStatus.errorVjStar
        (calculate_optimal_scenario_returns failSolver [sampleProcessed]
          100)).total_actual_returns s = 0) :=
  solve_vjstar_error failSolver notSolvedMain [sampleRaw] [sampleProcessed]
    100 0 0 calculate_gamma Scenario.best rfl rfl rfl

/-! ### C1 -/

/-- C1: when the eligible set is nonempty, the effective-return pass
succeeds, every scenario ideal value is finite, and the main solve returns
without exception with status Optimal, the assembled result has: status
Optimal; `min_max_regret` the main objective value; `selected_initiatives`
exactly the eligible ids whose decision variable exceeds 0.5; `total_cost`
and per-scenario `total_actual_returns` summed over the selected records;
the stored `v_j_star` map; and per-scenario regrets
`V_j_star[s] - total_actual_returns[s]`. -/
theorem solve_optimal_assembly (scenarioSolver : Scenario → LpOutcome)
    (mainSolver : LpOutcome) (initiatives_data processed : List Initiative)
    (total_budget min_confidence_threshold min_portfolio_worst_return : ℚ)
    (confidence_penalty_func : ℚ → Except String ℚ) (vs : Scenario → ℚ)
    (hne : (eligibleFilter min_confidence_threshold initiatives_data).isEmpty = false)
    (hproc : calculate_effective_returns confidence_penalty_func
      (eligibleFilter min_confidence_threshold initiatives_data) = Except.ok processed)
    (hV : ∀ s, calculate_optimal_scenario_returns scenarioSolver processed
      total_budget s = some (vs s))
    (hraised : mainSolver.raised = false)
    (hopt : mainSolver.status = LpStatusCode.Optimal) :
    ∃ r final,
      solve_minimax_regret_optimization scenarioSolver mainSolver
        initiatives_data total_budget min_confidence_threshold
        min_portfolio_worst_return confidence_penalty_func =
        Except.ok (r, final) ∧
      r.status = SolveStatus.fromSolver LpStatusCode.Optimal ∧
      r.min_max_regret = some mainSolver.objective ∧
      r.selected_initiatives = (processed.filter
        (fun i => decide ((1:ℚ)/2 < mainSolver.varValue i.id))).map Initiative.id ∧
      (∀ n, n ∈ r.selected_initiatives ↔
        ∃ i ∈ processed, i.id = n ∧ (1:ℚ)/2 < mainSolver.varValue i.id) ∧
      r.total_cost = listCost (processed.filter
        (fun i => decide ((1:ℚ)/2 < mainSolver.varValue i.id))) ∧
      (∀ s, r.total_actual_returns s = listEffReturn s (processed.filter
        (fun i => decide ((1:ℚ)/2 < mainSolver.varValue i.id)))) ∧
      r.v_j_star = some (calculate_optimal_scenario_returns scenarioSolver
        processed total_budget) ∧
      (∃ f, r.regrets_for_selected_portfolio = some f ∧
        ∀ s, f s = vs s - r.total_actual_returns s) := by
  have hpen := calculate_effective_returns_ok_elim confidence_penalty_func _ _ hproc
  obtain ⟨mutated, hmut⟩ := mutationEffect_ok confidence_penalty_func
    min_confidence_threshold initiatives_data
    (fun i hi he => hpen i ((mem_eligibleFilter _ _ i).mpr ⟨hi, he⟩))
  have hcond : ¬(calculate_optimal_scenario_returns scenarioSolver processed
      total_budget Scenario.best = none ∨
    calculate_optimal_scenario_returns scenarioSolver processed
      total_budget Scenario.med = none ∨
    calculate_optimal_scenario_returns scenarioSolver processed
      total_budget Scenario.worst = none) := by
    simp [hV]
  have hnr : ¬ mainSolver.raised = true := by simp [hraised]
  have hrun : solve_minimax_regret_optimization scenarioSolver mainSolver
      initiatives_data total_budget min_confidence_threshold
      min_portfolio_worst_return confidence_penalty_func =
      Except.ok (assembleResult mainSolver
        (calculate_optimal_scenario_returns scenarioSolver processed total_budget)
        processed, mutated) := by
    rw [solve_eq_of_ok scenarioSolver mainSolver initiatives_data processed
      mutated total_budget min_confidence_threshold min_portfolio_worst_return
      confidence_penalty_func hne hproc hmut]
    show (if _ ∨ _ ∨ _ then _ else _) = _
    rw [if_neg hcond, if_neg hnr]
  refine ⟨_, mutated, hrun, ?_, ?_, ?_, ?_, ?_, ?_, ?_, ?_⟩
  · simp [assembleResult, hopt]
  · simp [assembleResult, hopt]
  · simp [assembleResult, hopt]
  · intro n
    simp only [assembleResult, hopt, if_pos, List.mem_map, List.mem_filter,
      decide_eq_true_eq]
    constructor
    · rintro ⟨i, ⟨hi, hv⟩, hid⟩
      exact ⟨i, hi, hid, hv⟩
    · rintro ⟨i, hi, hid, hv⟩
      exact ⟨i, ⟨hi, hv⟩, hid⟩
  · simp [assembleResult, hopt]
  · intro s
    simp [assembleResult, hopt]
  · simp [assembleResult, hopt]
  · refine ⟨_, rfl, fun s => ?_⟩
    simp [assembleResult, hopt, hV s]

/-- C1 witness: the theorem applied to a concrete optimal run selecting the
single eligible initiative. -/
theorem solve_optimal_assembly_witness :
    ∃ r final,
      solve_minimax_regret_optimization okSolver optMain
        [sampleRaw] 100 0 0 calculate_gamma =
        Except.ok (r, final) ∧
      r.status = SolveStatus.fromSolver LpStatusCode.Optimal ∧
      r.min_max_regret = some optMain.objective ∧
      r.selected_initiatives = ([sampleProcessed].filter
        (fun i => decide ((1:ℚ)/2 < optMain.varValue i.id))).map Initiative.id ∧
      (∀ n, n ∈ r.selected_initiatives ↔
        ∃ i ∈ [sampleProcessed], i.id = n ∧ (1:ℚ)/2 < optMain.varValue i.id) ∧
      r.total_cost = listCost ([sampleProcessed].filter
        (fun i => decide ((1:ℚ)/2 < optMain.varValue i.id))) ∧
      (∀ s, r.total_actual_returns s = listEffReturn s ([sampleProcessed].filter
        (fun i => decide ((1:ℚ)/2 < optMain.varValue i.id)))) ∧
      r.v_j_star = some (calculate_optimal_scenario_returns okSolver
        [sampleProcessed] 100) ∧
      (∃ f, r.regrets_for_selected_portfolio = some f ∧
        ∀ s, f s = (fun _ => (60:ℚ)) s - r.total_actual_returns s) :=
  solve_optimal_assembly okSolver optMain [sampleRaw] [sampleProcessed]
    100 0 0 calculate_gamma (fun _ => 60) rfl rfl (fun _ => rfl) rfl rfl

/-- Inversion on a completed run of the pipeline: either the empty-eligible
short circuit fired, or both list traversals succeeded and the result is one
of the `V_j_star`-error, main-solve-exception, or assembly outcomes. -/
theorem solve_ok_inversion (scenarioSolver : Scenario → LpOutcome)
    (mainSolver : LpOutcome) (initiatives_data : List Initiative)
    (total_budget min_confidence_threshold min_portfolio_worst_return : ℚ)
    (confidence_penalty_func : ℚ → Except String ℚ)
    (r : SolveResult) (final : List Initiative)
    (hrun : solve_minimax_regret_optimization scenarioSolver mainSolver
      initiatives_data total_budget min_confidence_threshold
      min_portfolio_worst_return confidence_penalty_func =
      Except.ok (r, final)) :
    (r = noEligibleResult ∧ final = initiatives_data ∧
      eligibleFilter min_confidence_threshold initiatives_data = []) ∨
    (∃ processed,
      calculate_effective_returns confidence_penalty_func
        (eligibleFilter min_confidence_threshold initiatives_data) =
        Except.ok processed ∧
      mutationEffect confidence_penalty_func min_confidence_threshold
        initiatives_data = Except.ok final ∧
      (r = errorResult SolveStatus.errorVjStar
        (calculate_optimal_scenario_returns scenarioSolver processed total_budget) ∨
       (r = errorResult (SolveStatus.errorMain mainSolver.msg)
         (calculate_optimal_scenario_returns scenarioSolver processed total_budget) ∧
         mainSolver.raised = true) ∨
       (r = assembleResult mainSolver
         (calculate_optimal_scenario_returns scenarioSolver processed total_budget)
         processed ∧ mainSolver.raised = false))) := by
  unfold solve_minimax_regret_optimization at hrun
  by_cases he : (eligibleFilter min_confidence_threshold initiatives_data).isEmpty = true
  · left
    simp only [he, if_true, Except.ok.injEq, Prod.mk.injEq] at hrun
    exact ⟨hrun.1.symm, hrun.2.symm, List.isEmpty_iff.mp he⟩
  · right
    simp only [he, if_false, Bool.false_eq_true] at hrun
    cases hp : calculate_effective_returns confidence_penalty_func
        (eligibleFilter min_confidence_threshold initiatives_data) with
    | error e =>
      simp only [hp] at hrun
      exact (Except.noConfusion hrun)
    | ok processed =>
      simp only [hp] at hrun
      refine ⟨processed, rfl, ?_⟩
      cases hm : mutationEffect confidence_penalty_func
          min_confidence_threshold initiatives_data with
      | error e =>
        simp only [hm] at hrun
        exact (Except.noConfusion hrun)
      | ok mutated =>
        simp only [hm] at hrun
        by_cases hv : calculate_optimal_scenario_returns scenarioSolver
            processed total_budget Scenario.best = none ∨
          calculate_optimal_scenario_returns scenarioSolver
            processed total_budget Scenario.med = none ∨
          calculate_optimal_scenario_returns scenarioSolver
            processed total_budget Scenario.worst = none
        · rw [if_pos hv] at hrun
          simp only [Except.ok.injEq, Prod.mk.injEq] at hrun
          exact ⟨congrArg Except.ok hrun.2, Or.inl hrun.1.symm⟩
        · rw [if_neg hv] at hrun
          by_cases hr : mainSolver.raised = true
          · rw [if_pos hr] at hrun
            simp only [Except.ok.injEq, Prod.mk.injEq] at hrun
            exact ⟨congrArg Except.ok hrun.2,
              Or.inr (Or.inl ⟨hrun.1.symm, hr⟩)⟩
          · rw [if_neg hr] at hrun
            simp only [Except.ok.injEq, Prod.mk.injEq] at hrun
            exact ⟨congrArg Except.ok hrun.2,
              Or.inr (Or.inr ⟨hrun.1.symm, by simpa using hr⟩)⟩

/-! ### C6 -/

/-- C6 (amended): the status of every completed run lies in the closed set
consisting of No-Eligible-Initiatives, the two Error statuses, and the five
PuLP solver statuses Optimal / Not Solved / Infeasible / Unbounded /
Undefined.  (The spec's list omits `Not Solved`.) -/
theorem solve_status_closed_set (scenarioSolver : Scenario → LpOutcome)
    (mainSolver : LpOutcome) (initiatives_data : List Initiative)
    (total_budget min_confidence_threshold min_portfolio_worst_return : ℚ)
    (confidence_penalty_func : ℚ → Except String ℚ)
    (r : SolveResult) (final : List Initiative)
    (hrun : solve_minimax_regret_optimization scenarioSolver mainSolver
      initiatives_data total_budget min_confidence_threshold
      min_portfolio_worst_return confidence_penalty_func =
      Except.ok (r, final)) :
    r.status = SolveStatus.noEligible ∨
    r.status = SolveStatus.errorVjStar ∨
    (∃ m, r.status = SolveStatus.errorMain m) ∨
    r.status = SolveStatus.fromSolver LpStatusCode.Optimal ∨
    r.status = SolveStatus.fromSolver LpStatusCode.NotSolved ∨
    r.status = SolveStatus.fromSolver LpStatusCode.Infeasible ∨
    r.status = SolveStatus.fromSolver LpStatusCode.Unbounded ∨
    r.status = SolveStatus.fromSolver LpStatusCode.Undefined := by
  rcases solve_ok_inversion scenarioSolver mainSolver initiatives_data
      total_budget min_confidence_threshold min_portfolio_worst_return
      confidence_penalty_func r final hrun with
    ⟨hr, _, _⟩ | ⟨processed, _, _, hr | ⟨hr, _⟩ | ⟨hr, _⟩⟩
  · exact Or.inl (by rw [hr]; rfl)
  · exact Or.inr (Or.inl (by rw [hr]; rfl))
  · exact Or.inr (Or.inr (Or.inl ⟨mainSolver.msg, by rw [hr]; rfl⟩))
  · have hst : r.status = SolveStatus.fromSolver mainSolver.status := by
      rw [hr]; rfl
    cases hc : mainSolver.status with
    | Optimal => exact Or.inr (Or.inr (Or.inr (Or.inl (hc ▸ hst))))
    | NotSolved => exact Or.inr (Or.inr (Or.inr (Or.inr (Or.inl (hc ▸ hst)))))
    | Infeasible =>
      exact Or.inr (Or.inr (Or.inr (Or.inr (Or.inr (Or.inl (hc ▸ hst))))))
    | Unbounded =>
      exact Or.inr (Or.inr (Or.inr (Or.inr (Or.inr (Or.inr (Or.inl (hc ▸ hst)))))))
    | Undefined =>
      exact Or.inr (Or.inr (Or.inr (Or.inr (Or.inr (Or.inr (Or.inr (hc ▸ hst)))))))

/-- C6 witness: the amended theorem applied to a concrete short-circuited
run. -/
theorem solve_status_closed_set_witness :
    noEligibleResult.status = SolveStatus.noEligible ∨
    noEligibleResult.status = SolveStatus.errorVjStar ∨
    (∃ m, noEligibleResult.status = SolveStatus.errorMain m) ∨
    noEligibleResult.status = SolveStatus.fromSolver LpStatusCode.Optimal ∨
    noEligibleResult.status = SolveStatus.fromSolver LpStatusCode.NotSolved ∨
    noEligibleResult.status = SolveStatus.fromSolver LpStatusCode.Infeasible ∨
    noEligibleResult.status = SolveStatus.fromSolver LpStatusCode.Unbounded ∨
    noEligibleResult.status = SolveStatus.fromSolver LpStatusCode.Undefined :=
  solve_status_closed_set failSolver notSolvedMain [sampleRaw] 100 1 0
    calculate_gamma noEligibleResult [sampleRaw] rfl

/-- C6 counterexample: a completed run (main solve ends without exception in
PuLP status `Not Solved`) whose result status falls outside the closed set
the specification names. -/
theorem solve_status_cex :
    (runResult (solve_minimax_regret_optimization okSolver notSolvedMain
      [sampleRaw] 100 0 0 calculate_gamma)).map
      (fun r => statusInSpecSet r.status) = some false := by
  decide

/-! ### C7 -/

/-- C7: whenever the status of a completed run is not the successful Optimal
solver status, the result carries an empty selection, absent minimax regret,
zero total cost, zero per-scenario actual returns, and per-scenario regrets
that are all zero whenever the regrets dict is present at all. -/
theorem solve_non_optimal_zeroes (scenarioSolver : Scenario → LpOutcome)
    (mainSolver : LpOutcome) (initiatives_data : List Initiative)
    (total_budget min_confidence_threshold min_portfolio_worst_return : ℚ)
    (confidence_penalty_func : ℚ → Except String ℚ)
    (r : SolveResult) (final : List Initiative)
    (hrun : solve_minimax_regret_optimization scenarioSolver mainSolver
      initiatives_data total_budget min_confidence_threshold
      min_portfolio_worst_return confidence_penalty_func =
      Except.ok (r, final))
    (hst : r.status ≠ SolveStatus.fromSolver LpStatusCode.Optimal) :
    r.selected_initiatives = [] ∧ r.min_max_regret = none ∧
    r.total_cost = 0 ∧ (∀ s, r.total_actual_returns s = 0) ∧
    (∀ f, r.regrets_for_selected_portfolio = some f → ∀ s, f s = 0) := by
  rcases solve_ok_inversion scenarioSolver mainSolver initiatives_data
      total_budget min_confidence_threshold min_portfolio_worst_return
      confidence_penalty_func r final hrun with
    ⟨hr, _, _⟩ | ⟨processed, _, _, hr | ⟨hr, _⟩ | ⟨hr, _⟩⟩
  · subst hr
    exact ⟨rfl, rfl, rfl, fun _ => rfl, fun f hf => Option.noConfusion hf⟩
  · subst hr
    refine ⟨rfl, rfl, rfl, fun _ => rfl, fun f hf s => ?_⟩
    rw [← Option.some.inj hf]
  · subst hr
    refine ⟨rfl, rfl, rfl, fun _ => rfl, fun f hf s => ?_⟩
    rw [← Option.some.inj hf]
  · subst hr
    have hso : ¬ mainSolver.status = LpStatusCode.Optimal := by
      intro hc
      exact hst (by simp [assembleResult, hc])
    refine ⟨?_, ?_, ?_, fun s => ?_, fun f hf s => ?_⟩
    · simp [assembleResult, hso]
    · simp [assembleResult, hso]
    · simp [assembleResult, hso, listCost]
    · simp [assembleResult, hso, listEffReturn]
    · rw [← Option.some.inj hf]
      simp [assembleResult, hso]

/-- C7 witness: the theorem applied to a run that fails the `V_j_star`
computation. -/
theorem solve_non_optimal_zeroes_witness :
    (errorResult SolveStatus.errorVjStar
      (calculate_optimal_scenario_returns failSolver [sampleProcessed]
        100)).selected_initiatives = [] ∧
    (errorResult SolveStatus.errorVjStar
      (calculate_optimal_scenario_returns failSolver [sampleProcessed]
        100)).min_max_regret = none ∧
    (errorResult SolveStatus.errorVjStar
      (calculate_optimal_scenario_returns failSolver [sampleProcessed]
        100)).total_cost = 0 ∧
    (∀ s, (errorResult SolveStatus.errorVjStar
      (calculate_optimal_scenario_returns failSolver [sampleProcessed]
        100)).total_actual_returns s = 0) ∧
    (∀ f, (errorResult SolveStatus.errorVjStar
      (calculate_optimal_scenario_returns failSolver [sampleProcessed]
        100)).regrets_for_selected_portfolio = some f → ∀ s, f s = 0) :=
  solve_non_optimal_zeroes failSolver notSolvedMain [sampleRaw] 100 0 0
    calculate_gamma
    (errorResult SolveStatus.errorVjStar
      (calculate_optimal_scenario_returns failSolver [sampleProcessed] 100))
    [sampleProcessed] rfl (by decide)

/-! ### C9 -/

/-- C9: with the default penalty model and every confidence in `[0, 1]`, the
pipeline never raises: whatever the two solver oracles do (exceptions and
arbitrary statuses included), the run completes with a well-formed result. -/
theorem solve_total_on_valid_confidence (scenarioSolver : Scenario → LpOutcome)
    (mainSolver : LpOutcome) (initiatives_data : List Initiative)
    (total_budget min_confidence_threshold min_portfolio_worst_return : ℚ)
    (h : ∀ i ∈ initiatives_data, 0 ≤ i.confidence ∧ i.confidence ≤ 1) :
    ∃ p, solve_minimax_regret_optimization scenarioSolver mainSolver
      initiatives_data total_budget min_confidence_threshold
      min_portfolio_worst_return calculate_gamma = Except.ok p := by
  by_cases he : (eligibleFilter min_confidence_threshold initiatives_data).isEmpty = true
  · exact ⟨(noEligibleResult, initiatives_data),
      solve_eq_noEligible scenarioSolver mainSolver initiatives_data
        total_budget min_confidence_threshold min_portfolio_worst_return
        calculate_gamma (List.isEmpty_iff.mp he)⟩
  · have hpen : ∀ i ∈ eligibleFilter min_confidence_threshold initiatives_data,
        ∃ g, calculate_gamma i.confidence = Except.ok g := by
      intro i hi
      obtain ⟨hi', _⟩ := (mem_eligibleFilter _ _ i).mp hi
      obtain ⟨h0, h1⟩ := h i hi'
      exact ⟨1 - i.confidence, calculate_gamma_ok i.confidence h0 h1⟩
    obtain ⟨processed, hproc⟩ := calculate_effective_returns_ok calculate_gamma _ hpen
    obtain ⟨mutated, hmut⟩ := mutationEffect_ok calculate_gamma
      min_confidence_threshold initiatives_data
      (fun i hi hei => hpen i ((mem_eligibleFilter _ _ i).mpr ⟨hi, hei⟩))
    rw [solve_eq_of_ok scenarioSolver mainSolver initiatives_data processed
      mutated total_budget min_confidence_threshold min_portfolio_worst_return
      calculate_gamma (by simpa using he) hproc hmut]
    show ∃ p, (if _ ∨ _ ∨ _ then _ else _) = Except.ok p
    split_ifs with h1 h2
    · exact ⟨_, rfl⟩
    · exact ⟨_, rfl⟩
    · exact ⟨_, rfl⟩

/-- C9 witness: the theorem applied to one in-range initiative with solver
oracles that fail every scenario solve. -/
theorem solve_total_on_valid_confidence_witness :
    ∃ p, solve_minimax_regret_optimization failSolver notSolvedMain
      [sampleRaw] 100 0 0 calculate_gamma = Except.ok p :=
  solve_total_on_valid_confidence failSolver notSolvedMain [sampleRaw]
    100 0 0 (by
      intro i hi
      simp only [List.mem_singleton] at hi
      subst hi
      constructor <;> norm_num [sampleRaw])

/-! ### C10 -/

/-- C10: a completed run leaves every initiative of the caller's list with
confidence below the threshold untouched, and augments in place every
eligible initiative with `gamma` (the penalty of its confidence) and
`effective_returns`, its raw fields unchanged. -/
theorem solve_mutation_frame (scenarioSolver : Scenario → LpOutcome)
    (mainSolver : LpOutcome) (initiatives_data : List Initiative)
    (total_budget min_confidence_threshold min_portfolio_worst_return : ℚ)
    (confidence_penalty_func : ℚ → Except String ℚ)
    (r : SolveResult) (final : List Initiative)
    (hrun : solve_minimax_regret_optimization scenarioSolver mainSolver
      initiatives_data total_budget min_confidence_threshold
      min_portfolio_worst_return confidence_penalty_func =
      Except.ok (r, final)) :
    List.Forall₂ (fun i i' =>
      (¬ min_confidence_threshold ≤ i.confidence → i' = i) ∧
      (min_confidence_threshold ≤ i.confidence →
        ∃ g, confidence_penalty_func i.confidence = Except.ok g ∧
          i'.gamma = some g ∧
          i'.effective_returns =
            some (fun s => (1 - g) * R_base_map i s + g * i.R_worst) ∧
          i'.id = i.id ∧ i'.cost = i.cost ∧ i'.confidence = i.confidence ∧
          i'.R_best = i.R_best ∧ i'.R_med = i.R_med ∧ i'.R_worst = i.R_worst))
      initiatives_data final := by
  rcases solve_ok_inversion scenarioSolver mainSolver initiatives_data
      total_budget min_confidence_threshold min_portfolio_worst_return
      confidence_penalty_func r final hrun with
    ⟨_, hfin, hfil⟩ | ⟨processed, _, hmut, _⟩
  · subst hfin
    apply List.forall₂_same.mpr
    intro i hi
    have hne : ¬ min_confidence_threshold ≤ i.confidence := by
      have := List.filter_eq_nil_iff.mp hfil i hi
      simpa using this
    exact ⟨fun _ => rfl, fun hc => absurd hc hne⟩
  · exact mutationEffect_rel confidence_penalty_func min_confidence_threshold
      initiatives_data final hmut

/-- C10 witness: the theorem applied to a concrete run with one eligible
initiative; the caller's record is augmented to `sampleProcessed`. -/
theorem solve_mutation_frame_witness :
    List.Forall₂ (fun i i' =>
      (¬ (0:ℚ) ≤ i.confidence → i' = i) ∧
      ((0:ℚ) ≤ i.confidence →
        ∃ g, calculate_gamma i.confidence = Except.ok g ∧
          i'.gamma = some g ∧
          i'.effective_returns =
            some (fun s => (1 - g) * R_base_map i s + g * i.R_worst) ∧
          i'.id = i.id ∧ i'.cost = i.cost ∧ i'.confidence = i.confidence ∧
          i'.R_best = i.R_best ∧ i'.R_med = i.R_med ∧ i'.R_worst = i.R_worst))
      [sampleRaw] [sampleProcessed] :=
  solve_mutation_frame failSolver notSolvedMain [sampleRaw] 100 0 0
    calculate_gamma
    (errorResult SolveStatus.errorVjStar
      (calculate_optimal_scenario_returns failSolver [sampleProcessed] 100))
    [sampleProcessed] rfl
